import Mathlib

/-!
Verification of the Notes API service (`src/database/notes_api/server.js`).

The service is an Express HTTP handler over a single SQLite table
`notes(id INTEGER PRIMARY KEY AUTOINCREMENT, title TEXT NOT NULL,
content TEXT NOT NULL, created_at TEXT NOT NULL)`.  We embed it shallowly:

* the table is a `Store`: a list of rows plus the AUTOINCREMENT counter;
* a JSON request-body field is an `Option JSValue` (`none` models a field
  that is absent, i.e. `undefined` after destructuring; `some .null` models
  an explicit JSON `null`);
* `String.prototype.trim` is `jsTrim` (drop leading and trailing
  whitespace);
* SQLite's BINARY collation on TEXT (memcmp on UTF-8 bytes, which orders
  code points lexicographically) is `strLt`;
* `new Date().toISOString()` is `nowIso` applied to the current clock in
  milliseconds since the Unix epoch (days-to-civil-date conversion per the
  proleptic Gregorian calendar, as ECMAScript specifies);
* each handler is a function from the store and the validated-shape inputs
  to a response paired with the resulting store; error responses carry the
  HTTP status through `ApiError.status`.
-/

namespace NotesApi

/-- A JSON value as it can appear in a request-body field.  Only strings
carry their payload; the handlers never inspect the contents of the other
shapes (they only ever fail the `typeof x !== "string"` test). -/
inductive JSValue where
  | str (s : String)
  | num (n : Int)
  | null
  | boolean (b : Bool)
  | arr
  | obj
deriving DecidableEq, Repr

/-- `true` exactly when `typeof v === "string"` would hold in JS. -/
def JSValue.isStr : JSValue → Bool
  | .str _ => true
  | _ => false

/-- Request body for POST and PUT: each field is absent (`none`) or a JSON
value.  Destructuring `const { title, content } = req.body` yields
`undefined` for an absent property, which `none` models. -/
structure Body where
  title : Option JSValue := none
  content : Option JSValue := none
deriving DecidableEq, Repr

/-- Trimming on the underlying character list: drop leading whitespace,
then drop trailing whitespace (via reverse). -/
def trimL (l : List Char) : List Char :=
  ((l.dropWhile Char.isWhitespace).reverse.dropWhile Char.isWhitespace).reverse

/-- `String.prototype.trim()`: remove leading and trailing whitespace. -/
def jsTrim (s : String) : String := ⟨trimL s.data⟩

/-- Byte-wise lexicographic order on char lists; on UTF-8 encoded text this
is exactly SQLite's BINARY collation, used by `ORDER BY created_at DESC`. -/
def charListLt : List Char → List Char → Bool
  | _, [] => false
  | [], _ :: _ => true
  | a :: as, b :: bs =>
    if a.toNat < b.toNat then true
    else if b.toNat < a.toNat then false
    else charListLt as bs

/-- SQLite BINARY text comparison, strict. -/
def strLt (a b : String) : Bool := charListLt a.data b.data

/-- SQLite BINARY text comparison, non-strict. -/
def strLe (a b : String) : Bool := !(strLt b a)

/-- One row of the `notes` table. -/
structure Note where
  id : Nat
  title : String
  content : String
  created_at : String
deriving DecidableEq, Repr

/-- The persistent state: the rows of the `notes` table (in rowid order)
and the AUTOINCREMENT counter, i.e. the id the next insert receives. -/
structure Store where
  notes : List Note
  nextId : Nat
deriving DecidableEq, Repr

/-- The store as created by `initSchema` on a fresh database file. -/
def Store.init : Store := { notes := [], nextId := 1 }

/-- Well-formedness the SQLite table guarantees: every rowid is positive
and below the AUTOINCREMENT counter, rowids are unique, and the counter is
positive. -/
def Store.WF (s : Store) : Prop :=
  (∀ n ∈ s.notes, 0 < n.id ∧ n.id < s.nextId) ∧
    (s.notes.map Note.id).Nodup ∧ 0 < s.nextId

/-- The error responses the handlers produce (500 store errors are failures
of the external SQLite collaborator and are out of the embedded model). -/
inductive ApiError where
  | validation (msg : String)
  | notFound (msg : String)
deriving DecidableEq, Repr

/-- HTTP status attached to each error response. -/
def ApiError.status : ApiError → Nat
  | .validation _ => 400
  | .notFound _ => 404

/-- HTTP status of a create response: 201 on success. -/
def createStatus : Except ApiError (Option Note) → Nat
  | .ok _ => 201
  | .error e => e.status

/-- `true` exactly on a not-found (404) error response. -/
def isNotFoundResult {α : Type} : Except ApiError α → Bool
  | .error (.notFound _) => true
  | _ => false

/-- Days-since-epoch to civil (year, month, day), proleptic Gregorian —
the calendar conversion inside `Date.prototype.toISOString`. -/
def civilFromDays (z0 : Nat) : Nat × Nat × Nat :=
  let z := z0 + 719468
  let era := z / 146097
  let doe := z % 146097
  let yoe := (doe - doe / 1460 + doe / 36524 - doe / 146096) / 365
  let y := yoe + era * 400
  let doy := doe - (365 * yoe + yoe / 4 - yoe / 100)
  let mp := (5 * doy + 2) / 153
  let d := doy - (153 * mp + 2) / 5 + 1
  let m := if mp < 10 then mp + 3 else mp - 9
  (if m ≤ 2 then y + 1 else y, m, d)

/-- Character for a decimal digit. -/
def digitChar (n : Nat) : Char := Char.ofNat (48 + n % 10)

/-- Two decimal digits, zero padded. -/
def pad2 (n : Nat) : List Char := [digitChar (n / 10), digitChar n]

/-- Three decimal digits, zero padded. -/
def pad3 (n : Nat) : List Char := [digitChar (n / 100), digitChar (n / 10), digitChar n]

/-- Four decimal digits, zero padded. -/
def pad4 (n : Nat) : List Char :=
  [digitChar (n / 1000), digitChar (n / 100), digitChar (n / 10), digitChar n]

/-- `nowIso()` from server.js: `new Date().toISOString()` applied to the
current clock, given here as milliseconds since the Unix epoch.  Format
`YYYY-MM-DDTHH:MM:SS.mmmZ`, e.g. `2026-01-19T12:34:56.789Z`. -/
def nowIso (ms : Nat) : String :=
  let days := ms / 86400000
  let rem := ms % 86400000
  let ymd := civilFromDays days
  let hh := rem / 3600000
  let mi := rem % 3600000 / 60000
  let ss := rem % 60000 / 1000
  let fff := rem % 1000
  ⟨pad4 ymd.1 ++ '-' :: pad2 ymd.2.1 ++ '-' :: pad2 ymd.2.2 ++
    'T' :: pad2 hh ++ ':' :: pad2 mi ++ ':' :: pad2 ss ++ '.' :: pad3 fff ++ ['Z']⟩

/-- Recognizer for the ISO 8601 UTC timestamp shape
`YYYY-MM-DDTHH:MM:SS.mmmZ` (24 characters, digits and fixed separators). -/
def isIso8601UTC (s : String) : Bool :=
  match s.data with
  | [y1, y2, y3, y4, h1, m1, m2, h2, d1, d2, t, hh1, hh2, c1, mi1, mi2, c2,
      s1, s2, dot, f1, f2, f3, z] =>
    y1.isDigit && y2.isDigit && y3.isDigit && y4.isDigit && h1 == '-' &&
      m1.isDigit && m2.isDigit && h2 == '-' && d1.isDigit && d2.isDigit &&
      t == 'T' && hh1.isDigit && hh2.isDigit && c1 == ':' && mi1.isDigit &&
      mi2.isDigit && c2 == ':' && s1.isDigit && s2.isDigit && dot == '.' &&
      f1.isDigit && f2.isDigit && f3.isDigit && z == 'Z'
  | _ => false

/-- GET /api/notes: `SELECT id, title, content, created_at FROM notes
ORDER BY created_at DESC, id DESC`.  `listLe a b` holds when row `a` may
precede row `b` in that order. -/
def listLe (a b : Note) : Bool :=
  strLt b.created_at a.created_at ||
    (b.created_at == a.created_at && decide (b.id ≤ a.id))

/-- GET /api/notes: returns the ordered rows; read-only, so the store is
returned unchanged. -/
def listNotes (s : Store) : List Note × Store :=
  (s.notes.mergeSort listLe, s)

/-- POST /api/notes.  Validates `typeof title === "string"` and
`title.trim().length !== 0` (reporting `title is required`), then the same
for `content`; on success inserts the row with trimmed fields and
`created_at := nowIso()`, then re-reads it by `lastID` (`db.get` returns
the first matching row, possibly none, hence the `Option`). -/
def createNote (s : Store) (body : Body) (clock : Nat) :
    Except ApiError (Option Note) × Store :=
  match body.title with
  | some (.str t) =>
    if (jsTrim t).length = 0 then (.error (.validation "title is required"), s)
    else
      match body.content with
      | some (.str c) =>
        if (jsTrim c).length = 0 then
          (.error (.validation "content is required"), s)
        else
          let n : Note :=
            { id := s.nextId, title := jsTrim t, content := jsTrim c,
              created_at := nowIso clock }
          let s' : Store := { notes := s.notes ++ [n], nextId := s.nextId + 1 }
          (.ok (s'.notes.find? (fun m => m.id == n.id)), s')
      | _ => (.error (.validation "content is required"), s)
  | _ => (.error (.validation "title is required"), s)

/-- Validation of one optional PUT body field: absent is fine (`ok none`);
present must be a string with non-empty trim, in which case the trimmed
value joins the SET clause (`ok (some value)`); otherwise the 400 with the
field-specific message is produced (`error`). -/
def checkField : Option JSValue → Except Unit (Option String)
  | none => .ok none
  | some (.str t) =>
    if (jsTrim t).length = 0 then .error () else .ok (some (jsTrim t))
  | some _ => .error ()

/-- PUT /api/notes/:id.  `idp` is `Number(req.params.id)` reduced to its
integer value when `Number.isInteger` holds, `none` otherwise (NaN,
infinities, non-integral numbers).  Mirrors the handler: id check, field
checks, `nothing to update` check, `UPDATE ... WHERE id = ?` (404 when it
changes no row), then re-read of the row by id. -/
def updateNote (s : Store) (idp : Option Int) (body : Body) :
    Except ApiError (Option Note) × Store :=
  match idp with
  | none => (.error (.validation "invalid id"), s)
  | some i =>
    if i ≤ 0 then (.error (.validation "invalid id"), s)
    else
      match checkField body.title with
      | .error _ => (.error (.validation "title must be a non-empty string"), s)
      | .ok tOpt =>
        match checkField body.content with
        | .error _ =>
          (.error (.validation "content must be a non-empty string"), s)
        | .ok cOpt =>
          if tOpt.isNone && cOpt.isNone then
            (.error (.validation "nothing to update"), s)
          else
            let iN := i.toNat
            if s.notes.countP (fun n => n.id == iN) = 0 then
              (.error (.notFound "note not found"), s)
            else
              let notes' := s.notes.map (fun n =>
                if n.id == iN then
                  { n with title := tOpt.getD n.title,
                           content := cOpt.getD n.content }
                else n)
              (.ok (notes'.find? (fun n => n.id == iN)),
                { s with notes := notes' })

/-- DELETE /api/notes/:id: id check as in PUT, then `DELETE FROM notes
WHERE id = ?`, 404 when it changes no row, else `{deleted: true}`. -/
def deleteNote (s : Store) (idp : Option Int) : Except ApiError Unit × Store :=
  match idp with
  | none => (.error (.validation "invalid id"), s)
  | some i =>
    if i ≤ 0 then (.error (.validation "invalid id"), s)
    else
      let iN := i.toNat
      if s.notes.countP (fun n => n.id == iN) = 0 then
        (.error (.notFound "note not found"), s)
      else (.ok (), { s with notes := s.notes.filter (fun n => n.id != iN) })

/-- One client request, for stating invariants over arbitrary operation
sequences.  The clock of a create is carried with the request. -/
inductive Op where
  | create (body : Body) (clock : Nat)
  | update (idp : Option Int) (body : Body)
  | del (idp : Option Int)

/-- The store after serving one request (error responses leave it as is). -/
def applyOp (s : Store) : Op → Store
  | .create body clock => (createNote s body clock).2
  | .update idp body => (updateNote s idp body).2
  | .del idp => (deleteNote s idp).2

/-- The store after serving a sequence of requests. -/
def applyOps (s : Store) (ops : List Op) : Store := ops.foldl applyOp s

/-- The stored-text invariant of claim C3: every stored title and content
is its own trim and non-empty. -/
def Store.allTrimmed (s : Store) : Prop :=
  ∀ n ∈ s.notes,
    jsTrim n.title = n.title ∧ 0 < n.title.length ∧
      jsTrim n.content = n.content ∧ 0 < n.content.length

/-- Row constructor, a shorthand for stating theorems about created
rows. -/
def mkNote (i : Nat) (t c ts : String) : Note :=
  { id := i, title := t, content := c, created_at := ts }

/-- A concrete one-note store, used to instantiate the general theorems. -/
def sampleStore : Store :=
  { notes := [{ id := 1, title := "T", content := "C", created_at := "Z" }],
    nextId := 2 }

/-- The note held by `sampleStore`. -/
def sampleNote : Note :=
  { id := 1, title := "T", content := "C", created_at := "Z" }

/-! ### Order lemmas for the BINARY collation -/

lemma charListLt_irrefl : ∀ l, charListLt l l = false
  | [] => rfl
  | a :: as => by simp [charListLt, charListLt_irrefl as]

lemma charListLt_trans :
    ∀ a b c, charListLt a b = true → charListLt b c = true →
      charListLt a c = true
  | _, b, [], _, h2 => by cases b <;> simp [charListLt] at h2
  | [], _ :: _, _ :: _, _, _ => by simp [charListLt]
  | _ :: _, [], _ :: _, h1, _ => by simp [charListLt] at h1
  | a :: as, b :: bs, c :: cs, h1, h2 => by
    simp only [charListLt] at h1 h2 ⊢
    by_cases hbc : b.toNat < c.toNat
    · by_cases hab : a.toNat < b.toNat
      · rw [if_pos (Nat.lt_trans hab hbc)]
      · by_cases hba : b.toNat < a.toNat
        · simp [hab, hba] at h1
        · rw [if_pos (by omega : a.toNat < c.toNat)]
    · by_cases hcb : c.toNat < b.toNat
      · simp [hbc, hcb] at h2
      · simp only [if_neg hbc, if_neg hcb] at h2
        by_cases hab : a.toNat < b.toNat
        · rw [if_pos (by omega : a.toNat < c.toNat)]
        · by_cases hba : b.toNat < a.toNat
          · simp [hab, hba] at h1
          · simp only [if_neg hab, if_neg hba] at h1
            rw [if_neg (by omega : ¬a.toNat < c.toNat),
              if_neg (by omega : ¬c.toNat < a.toNat)]
            exact charListLt_trans as bs cs h1 h2

lemma charListLt_conn :
    ∀ a b, charListLt a b = false → charListLt b a = false → a = b
  | [], [], _, _ => rfl
  | [], _ :: _, h1, _ => by simp [charListLt] at h1
  | _ :: _, [], _, h2 => by simp [charListLt] at h2
  | a :: as, b :: bs, h1, h2 => by
    simp only [charListLt] at h1 h2
    rcases Nat.lt_trichotomy a.toNat b.toNat with hab | hab | hab <;>
      simp [hab, Nat.lt_asymm, Nat.lt_irrefl] at h1 h2
    · have hc : a = b := Char.eq_of_val_eq (UInt32.ext hab)
      have hs : as = bs := charListLt_conn as bs h1 h2
      rw [hc, hs]

lemma strLt_irrefl (a : String) : strLt a a = false := charListLt_irrefl a.data

lemma strLt_conn (a b : String) (h1 : strLt a b = false)
    (h2 : strLt b a = false) : a = b := by
  have h := charListLt_conn a.data b.data h1 h2
  exact congrArg String.mk h

lemma listLe_refl (a : Note) : listLe a a = true := by
  simp [listLe, strLt_irrefl]

lemma listLe_total (a b : Note) : (listLe a b || listLe b a) = true := by
  simp only [listLe, Bool.or_eq_true, Bool.and_eq_true, beq_iff_eq,
    decide_eq_true_eq]
  by_cases h1 : strLt b.created_at a.created_at = true
  · tauto
  · by_cases h2 : strLt a.created_at b.created_at = true
    · tauto
    · have heq : a.created_at = b.created_at :=
        strLt_conn _ _ (Bool.of_not_eq_true h2) (Bool.of_not_eq_true h1)
      rcases Nat.le_total b.id a.id with h | h <;> [left; right] <;> tauto

lemma listLe_trans (a b c : Note) (h1 : listLe a b = true)
    (h2 : listLe b c = true) : listLe a c = true := by
  simp only [listLe, Bool.or_eq_true, Bool.and_eq_true, beq_iff_eq,
    decide_eq_true_eq] at h1 h2 ⊢
  rcases h1 with h1 | ⟨h1e, h1i⟩ <;> rcases h2 with h2 | ⟨h2e, h2i⟩
  · exact Or.inl (charListLt_trans _ _ _ h2 h1)
  · rw [h2e]
    exact Or.inl h1
  · rw [← h1e]
    exact Or.inl h2
  · exact Or.inr ⟨h2e.trans h1e, Nat.le_trans h2i h1i⟩

/-! ### Trim lemmas -/

lemma dropWhile_head_not {p : Char → Bool} :
    ∀ (l : List Char) (a : Char), (l.dropWhile p).head? = some a →
      p a = false
  | [], a, h => by simp at h
  | x :: xs, a, h => by
    rw [List.dropWhile_cons] at h
    by_cases hx : p x = true
    · rw [if_pos hx] at h
      exact dropWhile_head_not xs a h
    · rw [if_neg hx] at h
      obtain rfl : x = a := by simpa using h
      exact Bool.of_not_eq_true hx

lemma dropWhile_eq_self_of_head {p : Char → Bool} (l : List Char)
    (h : ∀ a, l.head? = some a → p a = false) : l.dropWhile p = l := by
  cases l with
  | nil => rfl
  | cons x xs =>
    rw [List.dropWhile_cons, if_neg]
    simp [h x rfl]

lemma getLast?_dropWhile {p : Char → Bool} (l : List Char)
    (h : l.dropWhile p ≠ []) : (l.dropWhile p).getLast? = l.getLast? := by
  obtain ⟨t, ht⟩ := List.dropWhile_suffix (l := l) p
  conv_rhs => rw [← ht]
  rw [List.getLast?_append]
  cases hgl : (l.dropWhile p).getLast? with
  | none => exact absurd (List.getLast?_eq_none_iff.mp hgl) h
  | some a => rfl

lemma trimL_idem (l : List Char) : trimL (trimL l) = trimL l := by
  by_cases hv :
      ((l.dropWhile Char.isWhitespace).reverse.dropWhile Char.isWhitespace)
        = []
  · simp [trimL, hv]
  · have hu : l.dropWhile Char.isWhitespace ≠ [] := by
      intro h
      apply hv
      simp [h]
    have huh : ∀ a, (l.dropWhile Char.isWhitespace).head? = some a →
        Char.isWhitespace a = false := fun a ha => dropWhile_head_not l a ha
    have hstep1 :
        (((l.dropWhile Char.isWhitespace).reverse.dropWhile
            Char.isWhitespace).reverse).dropWhile Char.isWhitespace =
          ((l.dropWhile Char.isWhitespace).reverse.dropWhile
            Char.isWhitespace).reverse := by
      apply dropWhile_eq_self_of_head
      intro a ha
      rw [List.head?_reverse] at ha
      rw [getLast?_dropWhile _ hv, List.getLast?_reverse] at ha
      exact huh a ha
    have hstep2 :
        ((l.dropWhile Char.isWhitespace).reverse.dropWhile
            Char.isWhitespace).dropWhile Char.isWhitespace =
          (l.dropWhile Char.isWhitespace).reverse.dropWhile
            Char.isWhitespace := by
      apply dropWhile_eq_self_of_head
      intro a ha
      exact dropWhile_head_not _ a ha
    unfold trimL
    rw [hstep1, List.reverse_reverse, hstep2]

lemma jsTrim_idem (s : String) : jsTrim (jsTrim s) = jsTrim s := by
  show (⟨trimL (trimL s.data)⟩ : String) = ⟨trimL s.data⟩
  rw [trimL_idem]

/-! ### Timestamp format lemmas -/

lemma digitChar_isDigit (n : Nat) : (digitChar n).isDigit = true := by
  unfold digitChar
  have h : n % 10 < 10 := Nat.mod_lt _ (by norm_num)
  revert h
  generalize n % 10 = k
  intro h
  interval_cases k <;> decide

lemma nowIso_format (ms : Nat) : isIso8601UTC (nowIso ms) = true := by
  simp only [nowIso, pad4, pad3, pad2, List.cons_append, List.nil_append]
  unfold isIso8601UTC
  simp [digitChar_isDigit]

/-! ### Row lookup and counting lemmas -/

lemma find?_id_none (l : List Note) (k : Nat) (h : ∀ n ∈ l, n.id ≠ k) :
    l.find? (fun m => m.id == k) = none := by
  rw [List.find?_eq_none]
  intro x hx
  simp [h x hx]

lemma countP_id_zero (l : List Note) (k : Nat) (h : ∀ n ∈ l, n.id ≠ k) :
    l.countP (fun m => m.id == k) = 0 := by
  rw [List.countP_eq_zero]
  intro x hx
  simp [h x hx]

lemma countP_id_ne_zero (l : List Note) (k : Nat) (n : Note) (hn : n ∈ l)
    (hk : n.id = k) : l.countP (fun m => m.id == k) ≠ 0 := by
  intro h0
  rw [List.countP_eq_zero] at h0
  have := h0 n hn
  simp [hk] at this

lemma find?_update_map (g : Note → Note) (hg : ∀ m, (g m).id = m.id)
    (k : Nat) :
    ∀ (l : List Note), (l.map Note.id).Nodup → ∀ n ∈ l, n.id = k →
      (l.map (fun m => if m.id == k then g m else m)).find?
        (fun m => m.id == k) = some (g n)
  | [], _, n, hn, _ => absurd hn (List.not_mem_nil n)
  | x :: xs, hnd, n, hn, hk => by
    rw [List.map_cons, List.nodup_cons] at hnd
    rw [List.map_cons]
    by_cases hx : x.id = k
    · rw [if_pos (by simp [hx])]
      rw [List.find?_cons]
      have hgx : ((g x).id == k) = true := by simp [hg, hx]
      rw [hgx]
      rcases List.mem_cons.mp hn with rfl | hmem
      · rfl
      · exfalso
        apply hnd.1
        rw [hx, ← hk]
        exact List.mem_map_of_mem Note.id hmem
    · rw [if_neg (by simp [hx])]
      rw [List.find?_cons]
      have hxk : (x.id == k) = false := by simp [hx]
      rw [hxk]
      rcases List.mem_cons.mp hn with rfl | hmem
      · exact absurd hk hx
      · exact find?_update_map g hg k xs hnd.2 n hmem hk

/-! ### Field validation lemmas -/

lemma checkField_nonstr (v : JSValue) (hv : v.isStr = false) :
    checkField (some v) = .error () := by
  cases v <;> simp [JSValue.isStr] at hv ⊢ <;> rfl

lemma checkField_ok_some (x : Option JSValue) (v : String)
    (h : checkField x = .ok (some v)) : jsTrim v = v ∧ 0 < v.length := by
  cases x with
  | none => simp [checkField] at h
  | some w =>
    cases w with
    | str u =>
      simp only [checkField] at h
      by_cases hu : (jsTrim u).length = 0
      · rw [if_pos hu] at h
        simp at h
      · rw [if_neg hu] at h
        obtain rfl : jsTrim u = v := by simpa using h
        exact ⟨jsTrim_idem u, Nat.pos_of_ne_zero hu⟩
    | num n => simp [checkField] at h
    | null => simp [checkField] at h
    | boolean b => simp [checkField] at h
    | arr => simp [checkField] at h
    | obj => simp [checkField] at h

/-! ### Create: store shape and response -/

lemma createNote_store (s : Store) (body : Body) (t c : String)
    (hbt : body.title = some (.str t)) (hbc : body.content = some (.str c))
    (ht : (jsTrim t).length ≠ 0) (hc : (jsTrim c).length ≠ 0) (clock : Nat) :
    (createNote s body clock).2 =
      { notes := s.notes ++
          [{ id := s.nextId, title := jsTrim t, content := jsTrim c,
             created_at := nowIso clock }],
        nextId := s.nextId + 1 } := by
  unfold createNote
  rw [hbt, hbc]
  dsimp only
  rw [if_neg ht, if_neg hc]

lemma createNote_ok (s : Store) (hWF : s.WF) (body : Body) (t c : String)
    (hbt : body.title = some (.str t)) (hbc : body.content = some (.str c))
    (ht : (jsTrim t).length ≠ 0) (hc : (jsTrim c).length ≠ 0) (clock : Nat) :
    createNote s body clock =
      (.ok (some { id := s.nextId, title := jsTrim t, content := jsTrim c,
                   created_at := nowIso clock }),
       { notes := s.notes ++
           [{ id := s.nextId, title := jsTrim t, content := jsTrim c,
              created_at := nowIso clock }],
         nextId := s.nextId + 1 }) := by
  unfold createNote
  rw [hbt, hbc]
  dsimp only
  rw [if_neg ht, if_neg hc]
  have hnone : s.notes.find? (fun m => m.id == s.nextId) = none := by
    apply find?_id_none
    intro n hn
    have := (hWF.1 n hn).2
    omega
  simp [List.find?_append, hnone, List.find?]

/-! ### Update and delete: reduction lemmas -/

lemma updateNote_ok (s : Store) (hWF : s.WF) (i : Int) (hi : 0 < i)
    (body : Body) (tOpt cOpt : Option String)
    (hT : checkField body.title = .ok tOpt)
    (hC : checkField body.content = .ok cOpt)
    (hsome : (tOpt.isNone && cOpt.isNone) = false)
    (n : Note) (hn : n ∈ s.notes) (hid : n.id = i.toNat) :
    updateNote s (some i) body =
      (.ok (some { n with title := tOpt.getD n.title,
                          content := cOpt.getD n.content }),
       { s with notes := s.notes.map (fun m =>
           if m.id == i.toNat then
             { m with title := tOpt.getD m.title,
                      content := cOpt.getD m.content }
           else m) }) := by
  unfold updateNote
  dsimp only
  rw [if_neg (by omega : ¬i ≤ 0), hT, hC]
  dsimp only
  rw [if_neg (by simp [hsome] : ¬(tOpt.isNone && cOpt.isNone) = true)]
  rw [if_neg (countP_id_ne_zero s.notes i.toNat n hn hid)]
  rw [find?_update_map
    (fun m => { m with title := tOpt.getD m.title,
                       content := cOpt.getD m.content })
    (fun _ => rfl) i.toNat s.notes hWF.2.1 n hn hid]

lemma updateNote_notFound (s : Store) (i : Int) (hi : 0 < i)
    (body : Body) (tOpt cOpt : Option String)
    (hT : checkField body.title = .ok tOpt)
    (hC : checkField body.content = .ok cOpt)
    (hsome : (tOpt.isNone && cOpt.isNone) = false)
    (hmiss : ∀ n ∈ s.notes, n.id ≠ i.toNat) :
    updateNote s (some i) body = (.error (.notFound "note not found"), s) := by
  unfold updateNote
  dsimp only
  rw [if_neg (by omega : ¬i ≤ 0), hT, hC]
  dsimp only
  rw [if_neg (by simp [hsome] : ¬(tOpt.isNone && cOpt.isNone) = true)]
  rw [if_pos (countP_id_zero s.notes i.toNat hmiss)]

lemma deleteNote_notFound (s : Store) (i : Int) (hi : 0 < i)
    (hmiss : ∀ n ∈ s.notes, n.id ≠ i.toNat) :
    deleteNote s (some i) = (.error (.notFound "note not found"), s) := by
  unfold deleteNote
  dsimp only
  rw [if_neg (by omega : ¬i ≤ 0)]
  rw [if_pos (countP_id_zero s.notes i.toNat hmiss)]

lemma deleteNote_ok_notes (s : Store) (i : Int)
    (h : (deleteNote s (some i)).1 = .ok ()) :
    (deleteNote s (some i)).2.notes =
      s.notes.filter (fun n => n.id != i.toNat) := by
  simp only [deleteNote] at h ⊢
  by_cases hi : i ≤ 0
  · rw [if_pos hi] at h
    simp at h
  · rw [if_neg hi] at h ⊢
    by_cases hcnt : s.notes.countP (fun n => n.id == i.toNat) = 0
    · rw [if_pos hcnt] at h
      simp at h
    · rw [if_neg hcnt]

/-! ### Preservation of the stored-text invariant -/

lemma allTrimmed_create (s : Store) (h : s.allTrimmed) (body : Body)
    (clock : Nat) : ((createNote s body clock).2).allTrimmed := by
  unfold createNote
  cases hbt : body.title with
  | none => exact h
  | some v =>
    cases v with
    | str t =>
      dsimp only
      by_cases ht : (jsTrim t).length = 0
      · rw [if_pos ht]
        exact h
      · rw [if_neg ht]
        cases hbc : body.content with
        | none => exact h
        | some w =>
          cases w with
          | str c =>
            dsimp only
            by_cases hcc : (jsTrim c).length = 0
            · rw [if_pos hcc]
              exact h
            · rw [if_neg hcc]
              intro m hm
              rcases List.mem_append.mp hm with hmem | hmem
              · exact h m hmem
              · obtain rfl : m = _ := by simpa using hmem
                exact ⟨jsTrim_idem t, Nat.pos_of_ne_zero ht,
                  jsTrim_idem c, Nat.pos_of_ne_zero hcc⟩
          | num k => exact h
          | null => exact h
          | boolean b => exact h
          | arr => exact h
          | obj => exact h
    | num k => exact h
    | null => exact h
    | boolean b => exact h
    | arr => exact h
    | obj => exact h

lemma allTrimmed_update (s : Store) (h : s.allTrimmed) (idp : Option Int)
    (body : Body) : ((updateNote s idp body).2).allTrimmed := by
  unfold updateNote
  cases idp with
  | none => exact h
  | some i =>
    dsimp only
    by_cases hi : i ≤ 0
    · rw [if_pos hi]
      exact h
    · rw [if_neg hi]
      cases hT : checkField body.title with
      | error e => exact h
      | ok tOpt =>
        cases hC : checkField body.content with
        | error e => exact h
        | ok cOpt =>
          dsimp only
          by_cases hb : (tOpt.isNone && cOpt.isNone) = true
          · rw [if_pos hb]
            exact h
          · rw [if_neg hb]
            by_cases hcnt : s.notes.countP (fun n => n.id == i.toNat) = 0
            · rw [if_pos hcnt]
              exact h
            · rw [if_neg hcnt]
              intro m hm
              rcases List.mem_map.mp hm with ⟨m0, hm0, rfl⟩
              obtain ⟨h1, h2, h3, h4⟩ := h m0 hm0
              by_cases hid : (m0.id == i.toNat) = true
              · rw [if_pos hid]
                refine ⟨?_, ?_, ?_, ?_⟩
                · cases tOpt with
                  | none => exact h1
                  | some v => exact (checkField_ok_some body.title v hT).1
                · cases tOpt with
                  | none => exact h2
                  | some v => exact (checkField_ok_some body.title v hT).2
                · cases cOpt with
                  | none => exact h3
                  | some v => exact (checkField_ok_some body.content v hC).1
                · cases cOpt with
                  | none => exact h4
                  | some v => exact (checkField_ok_some body.content v hC).2
              · rw [if_neg hid]
                exact ⟨h1, h2, h3, h4⟩

lemma allTrimmed_delete (s : Store) (h : s.allTrimmed) (idp : Option Int) :
    ((deleteNote s idp).2).allTrimmed := by
  unfold deleteNote
  cases idp with
  | none => exact h
  | some i =>
    dsimp only
    by_cases hi : i ≤ 0
    · rw [if_pos hi]
      exact h
    · rw [if_neg hi]
      by_cases hcnt : s.notes.countP (fun n => n.id == i.toNat) = 0
      · rw [if_pos hcnt]
        exact h
      · rw [if_neg hcnt]
        intro m hm
        exact h m (List.mem_of_mem_filter hm)

lemma allTrimmed_applyOp (s : Store) (h : s.allTrimmed) (op : Op) :
    (applyOp s op).allTrimmed := by
  cases op with
  | create body clock => exact allTrimmed_create s h body clock
  | update idp body => exact allTrimmed_update s h idp body
  | del idp => exact allTrimmed_delete s h idp

lemma allTrimmed_init : Store.init.allTrimmed := by
  intro n hn
  simp [Store.init] at hn

lemma allTrimmed_applyOps (s : Store) (h : s.allTrimmed) (ops : List Op) :
    (applyOps s ops).allTrimmed := by
  induction ops generalizing s with
  | nil => exact h
  | cons op rest ih => exact ih (applyOp s op) (allTrimmed_applyOp s h op)

/-! ### Position of rows in a sorted listing -/

lemma pairwise_before :
    ∀ (l : List Note), l.Pairwise (fun a b => listLe a b = true) →
      ∀ (a b : Note), a ∈ l → b ∈ l → listLe a b = false →
        ∃ l1 l2 l3, l = l1 ++ b :: l2 ++ a :: l3
  | [], _, a, _, ha, _, _ => absurd ha (List.not_mem_nil a)
  | x :: xs, hp, a, b, ha, hb, hab => by
    have hne : a ≠ b := by
      intro he
      rw [he, listLe_refl b] at hab
      exact Bool.noConfusion hab
    rw [List.pairwise_cons] at hp
    by_cases hxb : x = b
    · subst hxb
      have hamem : a ∈ xs := by
        rcases List.mem_cons.mp ha with he | hm
        · exact absurd (he.trans rfl) hne
        · exact hm
      obtain ⟨u, w, hsplit⟩ := List.append_of_mem hamem
      refine ⟨[], u, w, ?_⟩
      rw [hsplit]
      rfl
    · by_cases hxa : x = a
      · subst hxa
        have hbmem : b ∈ xs := by
          rcases List.mem_cons.mp hb with he | hm
          · exact absurd he.symm hxb
          · exact hm
        have hle := hp.1 b hbmem
        rw [hle] at hab
        exact Bool.noConfusion hab
      · have hamem : a ∈ xs := by
          rcases List.mem_cons.mp ha with he | hm
          · exact absurd he.symm hxa
          · exact hm
        have hbmem : b ∈ xs := by
          rcases List.mem_cons.mp hb with he | hm
          · exact absurd he.symm hxb
          · exact hm
        obtain ⟨l1, l2, l3, hsplit⟩ :=
          pairwise_before xs hp.2 a b hamem hbmem hab
        refine ⟨x :: l1, l2, l3, ?_⟩
        rw [hsplit]
        simp

/-! ## The claims -/

/-- C1: for every create request whose title and content are strings that
are non-empty after trimming, the operation succeeds: it computes one
current UTC ISO 8601 timestamp, inserts exactly one row whose title and
content are the trimmed inputs and whose created_at is that timestamp, and
returns the full stored row (status 201) including the store-assigned
positive integer id and the created_at. -/
theorem claim1_create_valid (s : Store) (hWF : s.WF) (body : Body)
    (t c : String) (clock : Nat)
    (hbt : body.title = some (.str t)) (hbc : body.content = some (.str c))
    (ht : (jsTrim t).length ≠ 0) (hc : (jsTrim c).length ≠ 0) :
    ∃ row : Note,
      createNote s body clock =
        (.ok (some row),
         { notes := s.notes ++ [row], nextId := s.nextId + 1 }) ∧
      row.id = s.nextId ∧ 0 < row.id ∧
      row.title = jsTrim t ∧ row.content = jsTrim c ∧
      row.created_at = nowIso clock ∧
      isIso8601UTC row.created_at = true ∧
      createStatus (createNote s body clock).1 = 201 := by
  have hck := createNote_ok s hWF body t c hbt hbc ht hc clock
  refine ⟨{ id := s.nextId, title := jsTrim t, content := jsTrim c,
            created_at := nowIso clock },
    hck, rfl, hWF.2.2, rfl, rfl, rfl, nowIso_format clock, ?_⟩
  rw [hck]
  rfl

/-- Witness for C1 at a concrete store, body and clock. -/
theorem claim1_create_valid_witness :
    Store.init.WF ∧
    (jsTrim "  Groceries ").length ≠ 0 ∧ (jsTrim "Milk, eggs").length ≠ 0 ∧
    ∃ row : Note,
      createNote Store.init
          { title := some (.str "  Groceries "),
            content := some (.str "Milk, eggs") } 1768826096789 =
        (.ok (some row),
         { notes := Store.init.notes ++ [row],
           nextId := Store.init.nextId + 1 }) ∧
      row.id = Store.init.nextId ∧ 0 < row.id ∧
      row.title = jsTrim "  Groceries " ∧
      row.content = jsTrim "Milk, eggs" ∧
      row.created_at = nowIso 1768826096789 ∧
      isIso8601UTC row.created_at = true ∧
      createStatus (createNote Store.init
          { title := some (.str "  Groceries "),
            content := some (.str "Milk, eggs") } 1768826096789).1 = 201 :=
  ⟨⟨fun n hn => absurd hn (List.not_mem_nil n), List.nodup_nil, Nat.one_pos⟩,
   by decide, by decide,
   claim1_create_valid Store.init
     ⟨fun n hn => absurd hn (List.not_mem_nil n), List.nodup_nil, Nat.one_pos⟩
     { title := some (.str "  Groceries "),
       content := some (.str "Milk, eggs") }
     "  Groceries " "Milk, eggs" 1768826096789 rfl rfl
     (by decide) (by decide)⟩

/-- C2: for every store state, the list operation returns all stored notes
(a permutation of the table, no pagination), sorted by created_at
descending with id descending as the tie-break, and it does not modify the
store. -/
theorem claim2_list_sorted (s : Store) :
    (listNotes s).2 = s ∧
    ((listNotes s).1).Perm s.notes ∧
    ((listNotes s).1).Pairwise (fun a b => listLe a b = true) :=
  ⟨rfl, List.mergeSort_perm s.notes listLe,
   List.sorted_mergeSort (fun a b c => listLe_trans a b c) listLe_total
     s.notes⟩

/-- C3: every operation preserves the invariant that stored titles and
contents equal their own trim and are non-empty; hence every store state
reachable from the initial store by any sequence of create, update and
delete operations satisfies it. -/
theorem claim3_stored_text_invariant :
    (∀ (s : Store), s.allTrimmed → ∀ op : Op, (applyOp s op).allTrimmed) ∧
    (∀ ops : List Op, (applyOps Store.init ops).allTrimmed) :=
  ⟨fun s h op => allTrimmed_applyOp s h op,
   fun ops => allTrimmed_applyOps Store.init allTrimmed_init ops⟩

/-- Witness for C3: one concrete preservation step from a concrete
invariant-satisfying store. -/
theorem claim3_stored_text_invariant_witness :
    sampleStore.allTrimmed ∧
    (applyOp sampleStore
      (Op.create { title := some (.str " x "),
                   content := some (.str "y") } 0)).allTrimmed :=
  ⟨by unfold Store.allTrimmed; decide,
   claim3_stored_text_invariant.1 sampleStore
     (by unfold Store.allTrimmed; decide)
     (Op.create { title := some (.str " x "),
                  content := some (.str "y") } 0)⟩

/-- C4: a create request whose title or content is a string trimming to
empty fails with a ValidationError (status 400) whose message names the
offending field, and the store is unchanged. -/
theorem claim4_create_empty_rejected (s : Store) (body : Body)
    (t c : String) (clock : Nat)
    (hbt : body.title = some (.str t)) (hbc : body.content = some (.str c))
    (h : (jsTrim t).length = 0 ∨ (jsTrim c).length = 0) :
    createNote s body clock =
      (.error (.validation
        (if (jsTrim t).length = 0 then "title is required"
         else "content is required")), s) ∧
    createStatus (createNote s body clock).1 = 400 := by
  by_cases h1 : (jsTrim t).length = 0
  · unfold createNote
    rw [hbt]
    dsimp only
    rw [if_pos h1, if_pos h1]
    exact ⟨rfl, rfl⟩
  · have h2 : (jsTrim c).length = 0 := by tauto
    unfold createNote
    rw [hbt, hbc]
    dsimp only
    rw [if_neg h1, if_pos h2, if_neg h1]
    exact ⟨rfl, rfl⟩

/-- Witness for C4: the whitespace-only title from the spec scenario. -/
theorem claim4_create_empty_rejected_witness :
    ((jsTrim "  ").length = 0 ∨ (jsTrim "x").length = 0) ∧
    createNote Store.init
        { title := some (.str "  "), content := some (.str "x") } 0 =
      (.error (.validation
        (if (jsTrim "  ").length = 0 then "title is required"
         else "content is required")), Store.init) ∧
    createStatus (createNote Store.init
        { title := some (.str "  "), content := some (.str "x") } 0).1 =
      400 := by
  have h := claim4_create_empty_rejected Store.init
    { title := some (.str "  "), content := some (.str "x") }
    "  " "x" 0 rfl rfl (Or.inl (by decide))
  exact ⟨Or.inl (by decide), h.1, h.2⟩

/-- C5: a successful update of an existing note modifies only the supplied
fields: an omitted title or content keeps its stored value, created_at and
id are unchanged, and every other note in the store is unchanged. -/
theorem claim5_update_frame (s : Store) (hWF : s.WF) (i : Int) (hi : 0 < i)
    (body : Body) (tOpt cOpt : Option String)
    (hT : checkField body.title = .ok tOpt)
    (hC : checkField body.content = .ok cOpt)
    (hsome : (tOpt.isNone && cOpt.isNone) = false)
    (n : Note) (hn : n ∈ s.notes) (hid : n.id = i.toNat) :
    ∃ row : Note,
      updateNote s (some i) body =
        (.ok (some row),
         { s with notes := s.notes.map (fun m =>
             if m.id == i.toNat then
               { m with title := tOpt.getD m.title,
                        content := cOpt.getD m.content }
             else m) }) ∧
      row.id = n.id ∧ row.created_at = n.created_at ∧
      row.title = tOpt.getD n.title ∧ row.content = cOpt.getD n.content ∧
      (tOpt = none → row.title = n.title) ∧
      (cOpt = none → row.content = n.content) ∧
      (∀ m ∈ s.notes, m.id ≠ i.toNat →
        m ∈ (updateNote s (some i) body).2.notes) := by
  have hup := updateNote_ok s hWF i hi body tOpt cOpt hT hC hsome n hn hid
  refine ⟨{ n with title := tOpt.getD n.title, content := cOpt.getD n.content },
    hup, rfl, rfl, rfl, rfl,
    fun he => by rw [he]; rfl, fun he => by rw [he]; rfl, ?_⟩
  intro m hm hmne
  rw [hup]
  refine List.mem_map.mpr ⟨m, hm, ?_⟩
  rw [if_neg (by simp [hmne])]

/-- Witness for C5: update of only content on a one-note store. -/
theorem claim5_update_frame_witness :
    sampleStore.WF ∧ (0 : Int) < 1 ∧
    ∃ row : Note,
      updateNote sampleStore
          (some 1) { content := some (.str " Milk, eggs, bread ") } =
        (.ok (some row),
         { notes := [{ id := 1, title := "T",
                       content := "Milk, eggs, bread",
                       created_at := "Z" }], nextId := 2 }) ∧
      row.title = "T" ∧ row.created_at = "Z" ∧
      row.content = "Milk, eggs, bread" ∧ row.id = 1 := by
  have hWF : sampleStore.WF := by
    unfold Store.WF
    refine ⟨?_, ?_, ?_⟩ <;> decide
  obtain ⟨row, h1, h2, h3, h4, h5, h6, h7, h8⟩ :=
    claim5_update_frame sampleStore hWF 1 (by decide)
      { content := some (.str " Milk, eggs, bread ") }
      none (some "Milk, eggs, bread") rfl rfl (by decide)
      sampleNote (by decide) (by decide)
  refine ⟨hWF, by decide, row, ?_, ?_, ?_, ?_, ?_⟩
  · rw [h1]
    rfl
  · exact h6 rfl
  · exact h3
  · exact h5
  · exact h2

/-- C6: an update request whose body supplies neither title nor content
fails with a ValidationError (status 400) and leaves the store unchanged,
whatever the identity parameter is; it is never reported as success. -/
theorem claim6_update_empty_body (s : Store) (idp : Option Int)
    (body : Body) (ht : body.title = none) (hc : body.content = none) :
    ∃ msg, updateNote s idp body = (.error (.validation msg), s) ∧
      (ApiError.validation msg).status = 400 := by
  cases idp with
  | none => exact ⟨"invalid id", rfl, rfl⟩
  | some i =>
    by_cases hi : i ≤ 0
    · refine ⟨"invalid id", ?_, rfl⟩
      unfold updateNote
      dsimp only
      rw [if_pos hi]
    · refine ⟨"nothing to update", ?_, rfl⟩
      unfold updateNote
      dsimp only
      rw [if_neg hi, ht, hc]
      simp [checkField]

/-- Witness for C6: empty body against a valid id on the sample store. -/
theorem claim6_update_empty_body_witness :
    ∃ msg, updateNote sampleStore (some 1) {} =
      (.error (.validation msg), sampleStore) ∧
      (ApiError.validation msg).status = 400 :=
  claim6_update_empty_body sampleStore (some 1) {} rfl rfl

/-- C7 counterexample: the update request with the validly-formed positive
identity 99999, which matches no note of the empty store, and an empty
body fails with a ValidationError (`nothing to update`), not with the
NotFoundError the claim requires for every such request. -/
theorem claim7_counterexample :
    updateNote Store.init (some 99999) {} =
      (.error (.validation "nothing to update"), Store.init) ∧
    isNotFoundResult (updateNote Store.init (some 99999) {}).1 = false ∧
    (0 : Int) < 99999 ∧ Store.init.notes = [] := by
  refine ⟨?_, ?_, by decide, rfl⟩ <;> rfl

/-- C7 (amended): a delete request with a validly-formed positive identity
matching no stored note fails with a NotFoundError (404) and leaves the
store unchanged, and so does an update request with such an identity
provided its body passes field validation with at least one field
supplied; deleting an identity again right after a successful delete
yields not-found. -/
theorem claim7_missing_id_not_found (s : Store) (i : Int) (hi : 0 < i)
    (hmiss : ∀ n ∈ s.notes, n.id ≠ i.toNat)
    (body : Body) (tOpt cOpt : Option String)
    (hT : checkField body.title = .ok tOpt)
    (hC : checkField body.content = .ok cOpt)
    (hsome : (tOpt.isNone && cOpt.isNone) = false) :
    updateNote s (some i) body = (.error (.notFound "note not found"), s) ∧
    deleteNote s (some i) = (.error (.notFound "note not found"), s) ∧
    (ApiError.notFound "note not found").status = 404 ∧
    (∀ s' : Store, (deleteNote s' (some i)).1 = .ok () →
      (deleteNote (deleteNote s' (some i)).2 (some i)).1 =
        .error (.notFound "note not found")) := by
  refine ⟨updateNote_notFound s i hi body tOpt cOpt hT hC hsome hmiss,
    deleteNote_notFound s i hi hmiss, rfl, ?_⟩
  intro s' hok
  have hmiss2 : ∀ n ∈ (deleteNote s' (some i)).2.notes, n.id ≠ i.toNat := by
    rw [deleteNote_ok_notes s' i hok]
    intro n hn
    have hmem := List.mem_filter.mp hn
    simpa using hmem.2
  rw [deleteNote_notFound ((deleteNote s' (some i)).2) i hi hmiss2]

/-- Witness for C7 (amended): id 99999 against the sample store, with a
valid one-field body, plus the delete-twice scenario at id 1. -/
theorem claim7_missing_id_not_found_witness :
    (0 : Int) < 99999 ∧
    updateNote sampleStore (some 99999) { title := some (.str "x") } =
      (.error (.notFound "note not found"), sampleStore) ∧
    deleteNote sampleStore (some 99999) =
      (.error (.notFound "note not found"), sampleStore) ∧
    (deleteNote sampleStore (some 1)).1 = .ok () ∧
    (deleteNote (deleteNote sampleStore (some 1)).2 (some 1)).1 =
      .error (.notFound "note not found") := by
  have h := claim7_missing_id_not_found sampleStore 99999 (by decide)
    (by decide) { title := some (.str "x") } (some "x") none rfl rfl
    (by decide)
  have h2 := claim7_missing_id_not_found sampleStore 1 (by decide)
  refine ⟨by decide, h.1, h.2.1, rfl, ?_⟩
  exact (claim7_missing_id_not_found Store.init 1 (by decide) (by decide)
    { title := some (.str "x") } (some "x") none rfl rfl
    (by decide)).2.2.2 sampleStore rfl

/-- C8: when two notes are created in sequence with valid bodies and the
first timestamp is not later than the second (in the store's text order),
the listing places the second-created note (with the strictly larger id)
before the first-created one. -/
theorem claim8_newer_first (s : Store) (b1 b2 : Body)
    (t1 c1 t2 c2 : String) (clk1 clk2 : Nat)
    (hb1t : b1.title = some (.str t1)) (hb1c : b1.content = some (.str c1))
    (hb2t : b2.title = some (.str t2)) (hb2c : b2.content = some (.str c2))
    (h1t : (jsTrim t1).length ≠ 0) (h1c : (jsTrim c1).length ≠ 0)
    (h2t : (jsTrim t2).length ≠ 0) (h2c : (jsTrim c2).length ≠ 0)
    (hclk : strLe (nowIso clk1) (nowIso clk2) = true) :
    ∃ l1 l2 l3,
      (listNotes (createNote (createNote s b1 clk1).2 b2 clk2).2).1 =
        l1 ++
          mkNote (s.nextId + 1) (jsTrim t2) (jsTrim c2) (nowIso clk2) ::
          (l2 ++
            mkNote s.nextId (jsTrim t1) (jsTrim c1) (nowIso clk1) :: l3) ∧
      s.nextId < s.nextId + 1 := by
  have hs1 := createNote_store s b1 t1 c1 hb1t hb1c h1t h1c clk1
  have hs2 := createNote_store (createNote s b1 clk1).2 b2 t2 c2 hb2t hb2c
    h2t h2c clk2
  have hnotes : (createNote (createNote s b1 clk1).2 b2 clk2).2.notes =
      (s.notes ++ [mkNote s.nextId (jsTrim t1) (jsTrim c1) (nowIso clk1)])
        ++ [mkNote (s.nextId + 1) (jsTrim t2) (jsTrim c2) (nowIso clk2)] := by
    rw [hs2, hs1]
    rfl
  have hperm := List.mergeSort_perm
    (createNote (createNote s b1 clk1).2 b2 clk2).2.notes listLe
  have hm1 : mkNote s.nextId (jsTrim t1) (jsTrim c1) (nowIso clk1) ∈
      (listNotes (createNote (createNote s b1 clk1).2 b2 clk2).2).1 := by
    apply hperm.mem_iff.mpr
    rw [hnotes]
    simp
  have hm2 : mkNote (s.nextId + 1) (jsTrim t2) (jsTrim c2) (nowIso clk2) ∈
      (listNotes (createNote (createNote s b1 clk1).2 b2 clk2).2).1 := by
    apply hperm.mem_iff.mpr
    rw [hnotes]
    simp
  have hlt : strLt (nowIso clk2) (nowIso clk1) = false := by
    revert hclk
    unfold strLe
    cases strLt (nowIso clk2) (nowIso clk1) <;> simp
  have hab : listLe
      (mkNote s.nextId (jsTrim t1) (jsTrim c1) (nowIso clk1))
      (mkNote (s.nextId + 1) (jsTrim t2) (jsTrim c2) (nowIso clk2)) =
        false := by
    simp [listLe, mkNote, hlt]
  have hsorted := List.sorted_mergeSort
    (fun a b c => listLe_trans a b c) listLe_total
    (createNote (createNote s b1 clk1).2 b2 clk2).2.notes
  obtain ⟨l1, l2, l3, hsplit⟩ := pairwise_before
    (listNotes (createNote (createNote s b1 clk1).2 b2 clk2).2).1 hsorted
    (mkNote s.nextId (jsTrim t1) (jsTrim c1) (nowIso clk1))
    (mkNote (s.nextId + 1) (jsTrim t2) (jsTrim c2) (nowIso clk2))
    hm1 hm2 hab
  exact ⟨l1, l2, l3, by rw [hsplit]; simp, Nat.lt_succ_self s.nextId⟩

/-- Witness for C8: two concrete creates on the empty store with
increasing clocks. -/
theorem claim8_newer_first_witness :
    strLe (nowIso 1000) (nowIso 2000) = true ∧
    ∃ l1 l2 l3,
      (listNotes (createNote
          (createNote Store.init
            { title := some (.str "N1"), content := some (.str "a") }
            1000).2
          { title := some (.str "N2"), content := some (.str "b") }
          2000).2).1 =
        l1 ++
          mkNote (Store.init.nextId + 1) (jsTrim "N2") (jsTrim "b")
            (nowIso 2000) ::
          (l2 ++
            mkNote Store.init.nextId (jsTrim "N1") (jsTrim "a")
              (nowIso 1000) :: l3) ∧
      Store.init.nextId < Store.init.nextId + 1 :=
  ⟨by decide,
   claim8_newer_first Store.init
     { title := some (.str "N1"), content := some (.str "a") }
     { title := some (.str "N2"), content := some (.str "b") }
     "N1" "a" "N2" "b" 1000 2000 rfl rfl rfl rfl
     (by decide) (by decide) (by decide) (by decide) (by decide)⟩

/-- C9: an update or delete whose identity parameter is not a positive
integer (no integer value, or an integer that is zero or negative) fails
with the `invalid id` ValidationError before touching the store, while a
positive integer identity passes this check and never produces that
error. -/
theorem claim9_id_validation (s : Store) (body : Body) :
    (updateNote s none body = (.error (.validation "invalid id"), s) ∧
     deleteNote s none = (.error (.validation "invalid id"), s)) ∧
    (∀ i : Int, i ≤ 0 →
      updateNote s (some i) body = (.error (.validation "invalid id"), s) ∧
      deleteNote s (some i) = (.error (.validation "invalid id"), s)) ∧
    (∀ i : Int, 0 < i →
      (updateNote s (some i) body).1 ≠ .error (.validation "invalid id") ∧
      (deleteNote s (some i)).1 ≠ .error (.validation "invalid id")) := by
  refine ⟨⟨rfl, rfl⟩, ?_, ?_⟩
  · intro i hi
    constructor
    · unfold updateNote
      dsimp only
      rw [if_pos hi]
    · unfold deleteNote
      dsimp only
      rw [if_pos hi]
  · intro i hi
    constructor
    · unfold updateNote
      dsimp only
      rw [if_neg (by omega : ¬i ≤ 0)]
      cases checkField body.title with
      | error e => simp
      | ok tOpt =>
        cases checkField body.content with
        | error e => simp
        | ok cOpt =>
          dsimp only
          by_cases hb : (tOpt.isNone && cOpt.isNone) = true
          · rw [if_pos hb]
            simp
          · rw [if_neg hb]
            by_cases hcnt : s.notes.countP (fun n => n.id == i.toNat) = 0
            · rw [if_pos hcnt]
              simp
            · rw [if_neg hcnt]
              simp
    · unfold deleteNote
      dsimp only
      rw [if_neg (by omega : ¬i ≤ 0)]
      by_cases hcnt : s.notes.countP (fun n => n.id == i.toNat) = 0
      · rw [if_pos hcnt]
        simp
      · rw [if_neg hcnt]
        simp

/-- Witness for C9: a negative id is rejected, a positive id passes. -/
theorem claim9_id_validation_witness :
    ((-3 : Int) ≤ 0 ∧
      updateNote Store.init (some (-3)) {} =
        (.error (.validation "invalid id"), Store.init)) ∧
    ((0 : Int) < 7 ∧
      (deleteNote Store.init (some 7)).1 ≠
        .error (.validation "invalid id")) :=
  ⟨⟨by decide,
    ((claim9_id_validation Store.init {}).2.1 (-3) (by decide)).1⟩,
   ⟨by decide,
    ((claim9_id_validation Store.init {}).2.2 7 (by decide)).2⟩⟩

/-- C10: a create or update request supplying a non-string title or
content (number, null, boolean, array or object) fails with a
ValidationError and leaves the store unchanged; on update a supplied null
is invalid rather than treated as omitted, so non-string values are never
stored. -/
theorem claim10_nonstring_rejected (s : Store) (body : Body) (clock : Nat)
    (v : JSValue) (hv : v.isStr = false)
    (h : body.title = some v ∨ body.content = some v) :
    (∃ m, createNote s body clock = (.error (.validation m), s)) ∧
    (∀ idp : Option Int, ∃ m,
      updateNote s idp body = (.error (.validation m), s)) := by
  constructor
  · rcases h with hT | hCo
    · refine ⟨"title is required", ?_⟩
      unfold createNote
      rw [hT]
      cases v with
      | str u => simp [JSValue.isStr] at hv
      | num k => rfl
      | null => rfl
      | boolean b => rfl
      | arr => rfl
      | obj => rfl
    · cases hbt : body.title with
      | none =>
        refine ⟨"title is required", ?_⟩
        unfold createNote
        rw [hbt]
      | some w =>
        cases w with
        | str t =>
          by_cases ht : (jsTrim t).length = 0
          · refine ⟨"title is required", ?_⟩
            unfold createNote
            rw [hbt]
            dsimp only
            rw [if_pos ht]
          · refine ⟨"content is required", ?_⟩
            unfold createNote
            rw [hbt]
            dsimp only
            rw [if_neg ht, hCo]
            cases v with
            | str u => simp [JSValue.isStr] at hv
            | num k => rfl
            | null => rfl
            | boolean b => rfl
            | arr => rfl
            | obj => rfl
        | num k =>
          refine ⟨"title is required", ?_⟩
          unfold createNote
          rw [hbt]
        | null =>
          refine ⟨"title is required", ?_⟩
          unfold createNote
          rw [hbt]
        | boolean b =>
          refine ⟨"title is required", ?_⟩
          unfold createNote
          rw [hbt]
        | arr =>
          refine ⟨"title is required", ?_⟩
          unfold createNote
          rw [hbt]
        | obj =>
          refine ⟨"title is required", ?_⟩
          unfold createNote
          rw [hbt]
  · intro idp
    cases idp with
    | none => exact ⟨"invalid id", rfl⟩
    | some i =>
      by_cases hi : i ≤ 0
      · refine ⟨"invalid id", ?_⟩
        unfold updateNote
        dsimp only
        rw [if_pos hi]
      · rcases h with hT | hCo
        · refine ⟨"title must be a non-empty string", ?_⟩
          unfold updateNote
          dsimp only
          rw [if_neg hi, hT, checkField_nonstr v hv]
        · cases hT2 : checkField body.title with
          | error e =>
            refine ⟨"title must be a non-empty string", ?_⟩
            unfold updateNote
            dsimp only
            rw [if_neg hi, hT2]
          | ok tOpt =>
            refine ⟨"content must be a non-empty string", ?_⟩
            unfold updateNote
            dsimp only
            rw [if_neg hi, hT2, hCo, checkField_nonstr v hv]

/-- Witness for C10: a null title is rejected on create and on update. -/
theorem claim10_nonstring_rejected_witness :
    JSValue.null.isStr = false ∧
    (∃ m, createNote Store.init
        { title := some .null, content := some (.str "x") } 0 =
      (.error (.validation m), Store.init)) ∧
    (∃ m, updateNote Store.init (some 1)
        { title := some .null, content := some (.str "x") } =
      (.error (.validation m), Store.init)) :=
  ⟨rfl,
   (claim10_nonstring_rejected Store.init
     { title := some .null, content := some (.str "x") } 0 .null rfl
     (Or.inl rfl)).1,
   (claim10_nonstring_rejected Store.init
     { title := some .null, content := some (.str "x") } 0 .null rfl
     (Or.inl rfl)).2 (some 1)⟩

end NotesApi
